import Mathlib

/-!
Verification of the IC Engine Performance Estimator core
(`src/app.py` of SHIVAM27105/EngineEstimator).

The core is the pure function `calculate_engine_performance` together with
the two curve generators (efficiency vs compression ratio, power/torque vs
RPM).  Python float arithmetic is modelled over ℝ; `math.pi` is modelled by
`Real.pi`, `np.exp` by `Real.exp`, and numpy elementwise `**` on positive
bases by `Real.rpow`.  Python raises `ZeroDivisionError` on float division
by zero; the fallible variant `calculate_engine_performanceE` models this
with an `Except` value, while `calculate_engine_performance` is the total
ℝ-valued version (the two agree whenever no denominator is zero).
-/

namespace EngineEstimator

/-- The "Engine Type" selectbox of app.py line 86: "4-Stroke" or "2-Stroke". -/
inductive EngineType
  | fourStroke
  | twoStroke
deriving DecidableEq

/-- The "Fuel Type" selectbox of app.py line 100: "Petrol" or "Diesel". -/
inductive FuelType
  | petrol
  | diesel
deriving DecidableEq

/-- The result dictionary returned by `calculate_engine_performance`
(app.py lines 165-177), in the order of its keys. -/
structure PerformanceResult where
  swept_volume : ℝ
  indicated_power : ℝ
  brake_power : ℝ
  friction_power : ℝ
  mechanical_efficiency : ℝ
  brake_thermal_efficiency : ℝ
  indicated_thermal_efficiency : ℝ
  bsfc : ℝ
  isfc : ℝ
  torque : ℝ
  imep : ℝ

/-- Errors a run of the calculation can signal.  `zeroDivisionError` is
Python's built-in exception, raised by float division by zero — the only
error `src/app.py` can actually raise.  `invalidDenominator` is the
`DomainError` kind named by the spec's error taxonomy (§7); no such class
exists anywhere in `src/app.py`, so no computation ever produces it. -/
inductive CalcError
  | zeroDivisionError
  | invalidDenominator
deriving DecidableEq

noncomputable section

/-- Python float division: raises `ZeroDivisionError` when the denominator
is zero, otherwise returns the quotient. -/
def pydiv (x y : ℝ) : Except CalcError ℝ :=
  if y = 0 then Except.error CalcError.zeroDivisionError else Except.ok (x / y)

/-- app.py line 118 (with `bore_m = bore / 1000`, `stroke_m = stroke / 1000`
from lines 114-115): `(math.pi / 4) * bore_m ** 2 * stroke_m`, in m³. -/
def swept_volume_per_cylinder (bore stroke : ℝ) : ℝ :=
  (Real.pi / 4) * (bore / 1000) ^ 2 * (stroke / 1000)

/-- app.py line 121: `swept_volume_per_cylinder * num_cylinders * 1e6` (cc). -/
def total_swept_volume (bore stroke : ℝ) (num_cylinders : ℕ) : ℝ :=
  swept_volume_per_cylinder bore stroke * num_cylinders * 1e6

/-- app.py line 125: `(2 * math.pi * rpm * torque) / (60 * 1000)` (kW). -/
def brake_power (rpm torque : ℝ) : ℝ :=
  (2 * Real.pi * rpm * torque) / (60 * 1000)

/-- app.py line 134: `(math.pi / 4) * bore_m ** 2` (m²). -/
def piston_area (bore : ℝ) : ℝ :=
  (Real.pi / 4) * (bore / 1000) ^ 2

/-- app.py lines 137-140: `n = rpm` for "2-Stroke", `n = rpm / 2` for
"4-Stroke". -/
def working_strokes_per_minute (engine_type : EngineType) (rpm : ℝ) : ℝ :=
  match engine_type with
  | EngineType.twoStroke => rpm
  | EngineType.fourStroke => rpm / 2

/-- app.py lines 131-143: `imep_pa = imep * 1e5` and
`(imep_pa * stroke_m * piston_area * n * num_cylinders) / 60 / 1000` (kW). -/
def indicated_power (bore stroke : ℝ) (num_cylinders : ℕ)
    (engine_type : EngineType) (rpm imep : ℝ) : ℝ :=
  (imep * 1e5 * (stroke / 1000) * piston_area bore *
    working_strokes_per_minute engine_type rpm * num_cylinders) / 60 / 1000

/-- app.py line 153: `(fuel_consumption / 3600) * calorific_value` (kW). -/
def fuel_power (fuel_consumption calorific_value : ℝ) : ℝ :=
  (fuel_consumption / 3600) * calorific_value

/-- The pure-value reading of `calculate_engine_performance`
(app.py lines 108-177), with every Python float division interpreted as
real division.  The parameter `cr` is the source's `compression_ratio`
argument, which the function body never uses. -/
def calculate_engine_performance (bore stroke : ℝ) (num_cylinders : ℕ)
    (engine_type : EngineType) (cr rpm imep torque calorific_value
    fuel_consumption : ℝ) : PerformanceResult :=
  ⟨total_swept_volume bore stroke num_cylinders,
   indicated_power bore stroke num_cylinders engine_type rpm imep,
   brake_power rpm torque,
   indicated_power bore stroke num_cylinders engine_type rpm imep -
     brake_power rpm torque,
   brake_power rpm torque /
     indicated_power bore stroke num_cylinders engine_type rpm imep * 100,
   brake_power rpm torque / fuel_power fuel_consumption calorific_value * 100,
   indicated_power bore stroke num_cylinders engine_type rpm imep /
     fuel_power fuel_consumption calorific_value * 100,
   fuel_consumption * 1000 / brake_power rpm torque,
   fuel_consumption * 1000 /
     indicated_power bore stroke num_cylinders engine_type rpm imep,
   torque,
   imep⟩

/-- The same body as `calculate_engine_performance`, but with the working
strokes per minute `n` passed as a plain number instead of being selected by
the `engine_type` branch of lines 137-140.  This definition contains no
branch at all: exhibiting `calculate_engine_performance` as this function
applied to `working_strokes_per_minute engine_type rpm` shows the cycle-type
branch is the only branching in the calculation. -/
def calc_with_strokes (bore stroke : ℝ) (num_cylinders : ℕ)
    (cr n rpm imep torque calorific_value fuel_consumption : ℝ) :
    PerformanceResult :=
  ⟨total_swept_volume bore stroke num_cylinders,
   (imep * 1e5 * (stroke / 1000) * piston_area bore * n * num_cylinders) /
     60 / 1000,
   brake_power rpm torque,
   (imep * 1e5 * (stroke / 1000) * piston_area bore * n * num_cylinders) /
     60 / 1000 - brake_power rpm torque,
   brake_power rpm torque /
     ((imep * 1e5 * (stroke / 1000) * piston_area bore * n * num_cylinders) /
       60 / 1000) * 100,
   brake_power rpm torque / fuel_power fuel_consumption calorific_value * 100,
   (imep * 1e5 * (stroke / 1000) * piston_area bore * n * num_cylinders) /
     60 / 1000 / fuel_power fuel_consumption calorific_value * 100,
   fuel_consumption * 1000 / brake_power rpm torque,
   fuel_consumption * 1000 /
     ((imep * 1e5 * (stroke / 1000) * piston_area bore * n * num_cylinders) /
       60 / 1000),
   torque,
   imep⟩

/-- The fallible reading of `calculate_engine_performance`: each division
whose denominator is a computed quantity goes through `pydiv`, in the order
the Python statements execute them (mechanical efficiency at line 150, brake
and indicated thermal efficiency at lines 154 and 157, bsfc at line 160,
isfc at line 163), and the first zero denominator aborts the run exactly as
a raised `ZeroDivisionError` would. -/
def calculate_engine_performanceE (bore stroke : ℝ) (num_cylinders : ℕ)
    (engine_type : EngineType) (cr rpm imep torque calorific_value
    fuel_consumption : ℝ) : Except CalcError PerformanceResult :=
  match pydiv (brake_power rpm torque)
      (indicated_power bore stroke num_cylinders engine_type rpm imep) with
  | Except.error e => Except.error e
  | Except.ok mechDiv =>
    match pydiv (brake_power rpm torque)
        (fuel_power fuel_consumption calorific_value) with
    | Except.error e => Except.error e
    | Except.ok btDiv =>
      match pydiv (indicated_power bore stroke num_cylinders engine_type rpm imep)
          (fuel_power fuel_consumption calorific_value) with
      | Except.error e => Except.error e
      | Except.ok itDiv =>
        match pydiv (fuel_consumption * 1000) (brake_power rpm torque) with
        | Except.error e => Except.error e
        | Except.ok bsfcVal =>
          match pydiv (fuel_consumption * 1000)
              (indicated_power bore stroke num_cylinders engine_type rpm imep) with
          | Except.error e => Except.error e
          | Except.ok isfcVal =>
            Except.ok
              ⟨total_swept_volume bore stroke num_cylinders,
               indicated_power bore stroke num_cylinders engine_type rpm imep,
               brake_power rpm torque,
               indicated_power bore stroke num_cylinders engine_type rpm imep -
                 brake_power rpm torque,
               mechDiv * 100,
               btDiv * 100,
               itDiv * 100,
               bsfcVal,
               isfcVal,
               torque,
               imep⟩

/-- The `i`-th point of `np.linspace(6, 20, 50)` (app.py line 267):
compression ratio samples, uniform over `[6, 20]` inclusive. -/
def cr_sample (i : ℕ) : ℝ :=
  6 + (20 - 6) * i / (50 - 1)

/-- app.py line 267: the 50-point compression-ratio sample grid. -/
def cr_range : List ℝ :=
  (List.range 50).map cr_sample

/-- app.py lines 270-277: the theoretical-efficiency curve value at
compression ratio `r`.  Petrol uses `gamma = 1.4`; Diesel uses
`gamma = 1.35` and the result is additionally multiplied by `0.9`.  The
numpy elementwise power `cr_range ** (gamma - 1)` is `Real.rpow`. -/
def theoretical_efficiency (fuel_type : FuelType) (r : ℝ) : ℝ :=
  match fuel_type with
  | FuelType.petrol => (1 - 1 / r ^ ((1.4 : ℝ) - 1)) * 100
  | FuelType.diesel => (1 - 1 / r ^ ((1.35 : ℝ) - 1)) * 100 * 0.9

/-- app.py line 280: `practical_efficiency = theoretical_efficiency * 0.6`. -/
def practical_efficiency (fuel_type : FuelType) (r : ℝ) : ℝ :=
  theoretical_efficiency fuel_type r * 0.6

/-- app.py line 325: the fixed torque peak location, 3000 RPM. -/
def peak_rpm : ℝ := 3000

/-- The `i`-th point of `np.linspace(1000, 6000, 50)` (app.py line 321). -/
def rpm_sample (i : ℕ) : ℝ :=
  1000 + (6000 - 1000) * i / (50 - 1)

/-- app.py line 321: the 50-point RPM sample grid. -/
def rpm_range : List ℝ :=
  (List.range 50).map rpm_sample

/-- app.py lines 330-338: the synthetic torque curve at RPM `r`.  Linear
ramp `max_torque * (r / peak_rpm)` for `r ≤ peak_rpm`, exponential decay
`max_torque * np.exp(-0.0005 * (r - peak_rpm))` past the peak. -/
def torque_curve (max_torque r : ℝ) : ℝ :=
  if r ≤ peak_rpm then max_torque * (r / peak_rpm)
  else max_torque * Real.exp (-0.0005 * (r - peak_rpm))

/-- app.py line 343: `(2 * np.pi * rpm_range * torque_curve) / 60000` (kW),
at a single sample. -/
def power_curve (max_torque r : ℝ) : ℝ :=
  (2 * Real.pi * r * torque_curve max_torque r) / 60000

end

/-! ### Helper lemmas -/

/-- The total swept volume in closed form: `π · bore² · stroke · n / 4000`. -/
theorem total_swept_volume_eq (bore stroke : ℝ) (num_cylinders : ℕ) :
    total_swept_volume bore stroke num_cylinders =
      Real.pi * bore ^ 2 * stroke * num_cylinders / 4000 := by
  unfold total_swept_volume swept_volume_per_cylinder
  ring

/-- A zero value of any of the three computed denominators makes the run
abort with Python's `ZeroDivisionError`. -/
theorem calcE_error_of_zero (bore stroke : ℝ) (num_cylinders : ℕ)
    (engine_type : EngineType) (cr rpm imep torque calorific_value
    fuel_consumption : ℝ)
    (h : indicated_power bore stroke num_cylinders engine_type rpm imep = 0 ∨
      brake_power rpm torque = 0 ∨
      fuel_power fuel_consumption calorific_value = 0) :
    calculate_engine_performanceE bore stroke num_cylinders engine_type cr rpm
      imep torque calorific_value fuel_consumption =
      Except.error CalcError.zeroDivisionError := by
  unfold calculate_engine_performanceE pydiv
  by_cases hip : indicated_power bore stroke num_cylinders engine_type rpm imep = 0
  · simp [hip]
  · by_cases hfp : fuel_power fuel_consumption calorific_value = 0
    · simp [hip, hfp]
    · have hbp : brake_power rpm torque = 0 := by tauto
      simp [hip, hfp, hbp]

/-- When no denominator is zero, the fallible run succeeds and returns
exactly the pure-value result. -/
theorem calcE_ok_of_ne (bore stroke : ℝ) (num_cylinders : ℕ)
    (engine_type : EngineType) (cr rpm imep torque calorific_value
    fuel_consumption : ℝ)
    (hip : indicated_power bore stroke num_cylinders engine_type rpm imep ≠ 0)
    (hbp : brake_power rpm torque ≠ 0)
    (hfp : fuel_power fuel_consumption calorific_value ≠ 0) :
    calculate_engine_performanceE bore stroke num_cylinders engine_type cr rpm
      imep torque calorific_value fuel_consumption =
      Except.ok (calculate_engine_performance bore stroke num_cylinders
        engine_type cr rpm imep torque calorific_value fuel_consumption) := by
  unfold calculate_engine_performanceE pydiv
  simp [hip, hbp, hfp]
  rfl

/-- Compression-ratio samples are positive. -/
theorem cr_sample_pos (i : ℕ) : 0 < cr_sample i := by
  unfold cr_sample
  positivity

/-- Compression-ratio samples are strictly increasing in the index. -/
theorem cr_sample_lt {i j : ℕ} (h : i < j) : cr_sample i < cr_sample j := by
  unfold cr_sample
  have hc : (i : ℝ) < j := Nat.cast_lt.mpr h
  linarith

/-- The theoretical-efficiency curve is strictly increasing on positive
compression ratios, for both fuel types. -/
theorem theoretical_efficiency_lt (fuel_type : FuelType) {x y : ℝ}
    (hx : 0 < x) (hxy : x < y) :
    theoretical_efficiency fuel_type x < theoretical_efficiency fuel_type y := by
  cases fuel_type with
  | petrol =>
    have h1 : x ^ ((1.4 : ℝ) - 1) < y ^ ((1.4 : ℝ) - 1) :=
      Real.rpow_lt_rpow hx.le hxy (by norm_num)
    have h2 : 0 < x ^ ((1.4 : ℝ) - 1) := Real.rpow_pos_of_pos hx _
    have h3 : 1 / y ^ ((1.4 : ℝ) - 1) < 1 / x ^ ((1.4 : ℝ) - 1) :=
      one_div_lt_one_div_of_lt h2 h1
    simp only [theoretical_efficiency]
    linarith
  | diesel =>
    have h1 : x ^ ((1.35 : ℝ) - 1) < y ^ ((1.35 : ℝ) - 1) :=
      Real.rpow_lt_rpow hx.le hxy (by norm_num)
    have h2 : 0 < x ^ ((1.35 : ℝ) - 1) := Real.rpow_pos_of_pos hx _
    have h3 : 1 / y ^ ((1.35 : ℝ) - 1) < 1 / x ^ ((1.35 : ℝ) - 1) :=
      one_div_lt_one_div_of_lt h2 h1
    simp only [theoretical_efficiency]
    linarith

/-! ### Claim theorems -/

/-- Claim C1: for every input with `imep > 0`, `bore > 0`, `stroke > 0`,
`cylinder_count ≥ 1` and `rpm ≥ 0`, the computed `indicated_power` equals
`(imep·1e5) · (stroke/1000) · ((π/4)·(bore/1000)²) · n · cylinder_count / 60
/ 1000` kW, where `n = rpm` for a two-stroke engine and `n = rpm/2` for a
four-stroke engine; and the cycle-type branch is the only branching: the
whole result factors through the branch-free `calc_with_strokes` applied to
`working_strokes_per_minute`. -/
theorem claim_C1_indicated_power :
    ∀ (bore stroke : ℝ) (num_cylinders : ℕ) (engine_type : EngineType)
      (cr rpm imep torque calorific_value fuel_consumption : ℝ),
      0 < imep → 0 < bore → 0 < stroke → 1 ≤ num_cylinders → 0 ≤ rpm →
      (calculate_engine_performance bore stroke num_cylinders engine_type cr
          rpm imep torque calorific_value fuel_consumption).indicated_power =
        imep * 1e5 * (stroke / 1000) * (Real.pi / 4 * (bore / 1000) ^ 2) *
          working_strokes_per_minute engine_type rpm * num_cylinders /
          60 / 1000 ∧
      working_strokes_per_minute EngineType.twoStroke rpm = rpm ∧
      working_strokes_per_minute EngineType.fourStroke rpm = rpm / 2 ∧
      calculate_engine_performance bore stroke num_cylinders engine_type cr
          rpm imep torque calorific_value fuel_consumption =
        calc_with_strokes bore stroke num_cylinders cr
          (working_strokes_per_minute engine_type rpm) rpm imep torque
          calorific_value fuel_consumption := by
  intro bore stroke num_cylinders engine_type cr rpm imep torque cv fc
    _ _ _ _ _
  exact ⟨rfl, rfl, rfl, rfl⟩

/-- Witness for C1 at the app's default inputs. -/
theorem claim_C1_indicated_power_witness :
    (calculate_engine_performance 80 90 4 EngineType.fourStroke 9.5 3000 8 150
        44000 5).indicated_power =
      8 * 1e5 * (90 / 1000) * (Real.pi / 4 * (80 / 1000) ^ 2) *
        working_strokes_per_minute EngineType.fourStroke 3000 * 4 / 60 / 1000 :=
  (claim_C1_indicated_power 80 90 4 EngineType.fourStroke 9.5 3000 8 150 44000
    5 (by norm_num) (by norm_num) (by norm_num) (by norm_num) (by norm_num)).1

/-- Claim C2: `brake_power` equals `(2π·rpm·torque)/60000` kW for all
positive `rpm`, `torque`; the result structure's `brake_power` field is this
quantity; and at `rpm = 3000`, `torque = 150` it is within `0.005` of
`47.12` kW. -/
theorem claim_C2_brake_power :
    (∀ rpm torque : ℝ, 0 < rpm → 0 < torque →
      brake_power rpm torque = 2 * Real.pi * rpm * torque / 60000) ∧
    (∀ (bore stroke : ℝ) (num_cylinders : ℕ) (engine_type : EngineType)
      (cr rpm imep torque calorific_value fuel_consumption : ℝ),
      (calculate_engine_performance bore stroke num_cylinders engine_type cr
          rpm imep torque calorific_value fuel_consumption).brake_power =
        brake_power rpm torque) ∧
    |brake_power 3000 150 - 47.12| < 0.005 := by
  refine ⟨fun rpm torque _ _ => by unfold brake_power; norm_num,
    fun _ _ _ _ _ _ _ _ _ _ => rfl, ?_⟩
  have h15 : brake_power 3000 150 = 15 * Real.pi := by
    unfold brake_power; ring
  rw [h15, abs_lt]
  constructor
  · nlinarith [Real.pi_gt_d6]
  · nlinarith [Real.pi_lt_d6]

/-- Witness for C2 at `rpm = 3000`, `torque = 150`. -/
theorem claim_C2_brake_power_witness :
    brake_power 3000 150 = 2 * Real.pi * 3000 * 150 / 60000 :=
  claim_C2_brake_power.1 3000 150 (by norm_num) (by norm_num)

/-- Claim C3: for every input, the `friction_power` field equals the
`indicated_power` field minus the `brake_power` field identically. -/
theorem claim_C3_friction_power :
    ∀ (bore stroke : ℝ) (num_cylinders : ℕ) (engine_type : EngineType)
      (cr rpm imep torque calorific_value fuel_consumption : ℝ),
      (calculate_engine_performance bore stroke num_cylinders engine_type cr
          rpm imep torque calorific_value fuel_consumption).friction_power =
        (calculate_engine_performance bore stroke num_cylinders engine_type cr
          rpm imep torque calorific_value fuel_consumption).indicated_power -
        (calculate_engine_performance bore stroke num_cylinders engine_type cr
          rpm imep torque calorific_value fuel_consumption).brake_power := by
  intro bore stroke num_cylinders engine_type cr rpm imep torque cv fc
  rfl

/-- Claim C6: with all other parameters identical, the two-stroke
`indicated_power` is exactly twice the four-stroke one. -/
theorem claim_C6_two_stroke_doubles :
    ∀ (bore stroke : ℝ) (num_cylinders : ℕ)
      (cr rpm imep torque calorific_value fuel_consumption : ℝ),
      (calculate_engine_performance bore stroke num_cylinders
          EngineType.twoStroke cr rpm imep torque calorific_value
          fuel_consumption).indicated_power =
        2 * (calculate_engine_performance bore stroke num_cylinders
          EngineType.fourStroke cr rpm imep torque calorific_value
          fuel_consumption).indicated_power := by
  intro bore stroke num_cylinders cr rpm imep torque cv fc
  simp only [calculate_engine_performance, indicated_power,
    working_strokes_per_minute]
  ring

/-- Claim C7: the total swept volume equals
`(π/4)·(bore/1000)²·(stroke/1000)·cylinder_count·1e6` cc, and it is strictly
increasing in bore, in stroke and in cylinder count separately. -/
theorem claim_C7_swept_volume :
    (∀ (bore stroke : ℝ) (num_cylinders : ℕ) (engine_type : EngineType)
      (cr rpm imep torque calorific_value fuel_consumption : ℝ),
      (calculate_engine_performance bore stroke num_cylinders engine_type cr
          rpm imep torque calorific_value fuel_consumption).swept_volume =
        Real.pi / 4 * (bore / 1000) ^ 2 * (stroke / 1000) * num_cylinders *
          1e6) ∧
    (∀ (b₁ b₂ stroke : ℝ) (num_cylinders : ℕ), 0 < b₁ → b₁ < b₂ →
      0 < stroke → 1 ≤ num_cylinders →
      total_swept_volume b₁ stroke num_cylinders <
        total_swept_volume b₂ stroke num_cylinders) ∧
    (∀ (bore s₁ s₂ : ℝ) (num_cylinders : ℕ), 0 < bore → 0 < s₁ → s₁ < s₂ →
      1 ≤ num_cylinders →
      total_swept_volume bore s₁ num_cylinders <
        total_swept_volume bore s₂ num_cylinders) ∧
    (∀ (bore stroke : ℝ) (n₁ n₂ : ℕ), 0 < bore → 0 < stroke → 1 ≤ n₁ →
      n₁ < n₂ →
      total_swept_volume bore stroke n₁ < total_swept_volume bore stroke n₂) := by
  refine ⟨?_, ?_, ?_, ?_⟩
  · intro bore stroke num_cylinders engine_type cr rpm imep torque cv fc
    show total_swept_volume bore stroke num_cylinders = _
    unfold total_swept_volume swept_volume_per_cylinder
    ring
  · intro b₁ b₂ stroke nc hb₁ hb hs hnc
    have hn : (1 : ℝ) ≤ nc := by exact_mod_cast hnc
    rw [total_swept_volume_eq, total_swept_volume_eq]
    gcongr
  · intro bore s₁ s₂ nc hb hs₁ hs hnc
    have hn : (1 : ℝ) ≤ nc := by exact_mod_cast hnc
    rw [total_swept_volume_eq, total_swept_volume_eq]
    gcongr
  · intro bore stroke n₁ n₂ hb hs hn₁ hn
    have hcast : (n₁ : ℝ) < n₂ := by exact_mod_cast hn
    rw [total_swept_volume_eq, total_swept_volume_eq]
    gcongr

/-- Witness for C7: swept volume strictly grows from bore 80 to 81, from
stroke 90 to 91, and from 4 to 5 cylinders. -/
theorem claim_C7_swept_volume_witness :
    total_swept_volume 80 90 4 < total_swept_volume 81 90 4 ∧
    total_swept_volume 80 90 4 < total_swept_volume 80 91 4 ∧
    total_swept_volume 80 90 4 < total_swept_volume 80 90 5 :=
  ⟨claim_C7_swept_volume.2.1 80 81 90 4 (by norm_num) (by norm_num)
      (by norm_num) (by norm_num),
    claim_C7_swept_volume.2.2.1 80 90 91 4 (by norm_num) (by norm_num)
      (by norm_num) (by norm_num),
    claim_C7_swept_volume.2.2.2 80 90 4 5 (by norm_num) (by norm_num)
      (by norm_num) (by norm_num)⟩

/-- Claim C10: `calculate_engine_performance` takes `compression_ratio` as a
parameter but no field of the result depends on it: two inputs differing
only in that parameter give identical results. -/
theorem claim_C10_compression_ratio_unused :
    ∀ (bore stroke : ℝ) (num_cylinders : ℕ) (engine_type : EngineType)
      (cr₁ cr₂ rpm imep torque calorific_value fuel_consumption : ℝ),
      calculate_engine_performance bore stroke num_cylinders engine_type cr₁
          rpm imep torque calorific_value fuel_consumption =
        calculate_engine_performance bore stroke num_cylinders engine_type cr₂
          rpm imep torque calorific_value fuel_consumption := by
  intro bore stroke num_cylinders engine_type cr₁ cr₂ rpm imep torque cv fc
  rfl

/-- Counterexample to claim C4 as stated: with `torque = 0` (other inputs at
their defaults) the run aborts with Python's built-in `ZeroDivisionError`,
which is not the spec's `DomainError` kind `InvalidDenominator` — no
`DomainError` class exists in `src/app.py` at all. -/
theorem claim_C4_counterexample :
    calculate_engine_performanceE 80 90 4 EngineType.fourStroke 9.5 3000 8 0
        44000 5 = Except.error CalcError.zeroDivisionError ∧
      CalcError.zeroDivisionError ≠ CalcError.invalidDenominator := by
  constructor
  · exact calcE_error_of_zero 80 90 4 EngineType.fourStroke 9.5 3000 8 0 44000
      5 (Or.inr (Or.inl (by unfold brake_power; ring)))
  · decide

/-- Claim C4 (amended): when `indicated_power`, `brake_power` or
`fuel_power` is zero at the point of division, the calculation raises
Python's `ZeroDivisionError` — it aborts rather than silently returning
infinity. -/
theorem claim_C4_zero_denominator_raises :
    ∀ (bore stroke : ℝ) (num_cylinders : ℕ) (engine_type : EngineType)
      (cr rpm imep torque calorific_value fuel_consumption : ℝ),
      (indicated_power bore stroke num_cylinders engine_type rpm imep = 0 ∨
        brake_power rpm torque = 0 ∨
        fuel_power fuel_consumption calorific_value = 0) →
      calculate_engine_performanceE bore stroke num_cylinders engine_type cr
          rpm imep torque calorific_value fuel_consumption =
        Except.error CalcError.zeroDivisionError := by
  intro bore stroke num_cylinders engine_type cr rpm imep torque cv fc h
  exact calcE_error_of_zero bore stroke num_cylinders engine_type cr rpm imep
    torque cv fc h

/-- Witness for the amended C4 at `torque = 0`. -/
theorem claim_C4_zero_denominator_raises_witness :
    calculate_engine_performanceE 80 90 4 EngineType.fourStroke 9.5 3000 8 0
        44000 5 = Except.error CalcError.zeroDivisionError :=
  claim_C4_zero_denominator_raises 80 90 4 EngineType.fourStroke 9.5 3000 8 0
    44000 5 (Or.inr (Or.inl (by unfold brake_power; ring)))

/-- Counterexample to claim C5 as stated: `rpm = 0` lies inside the §6 range
`[0, 8000]` (the widget at app.py line 88 has `min_value=0`), yet with the
other inputs at their defaults both `brake_power` and `indicated_power` —
denominators of bsfc/isfc and of the efficiencies — are zero, not strictly
positive. -/
theorem claim_C5_counterexample :
    ((0 : ℝ) ≤ 0 ∧ (0 : ℝ) ≤ 8000) ∧
      brake_power 0 150 = 0 ∧
      indicated_power 80 90 4 EngineType.fourStroke 0 8 = 0 := by
  refine ⟨⟨le_refl 0, by norm_num⟩, by unfold brake_power; ring, ?_⟩
  simp only [indicated_power, working_strokes_per_minute]
  ring

/-- Claim C5 (amended): for every input within the §6 range table with
`rpm > 0` (i.e. `rpm ∈ (0, 8000]` instead of `[0, 8000]`), the denominators
`indicated_power`, `brake_power` and `fuel_power` are strictly positive, and
consequently the fallible run succeeds with the pure-value result — a zero
denominator is only reachable when a range constraint (or `rpm > 0`) is
violated. -/
theorem claim_C5_positive_denominators :
    ∀ (bore stroke : ℝ) (num_cylinders : ℕ) (engine_type : EngineType)
      (cr rpm imep torque calorific_value fuel_consumption : ℝ),
      10 ≤ bore → bore ≤ 1000 → 10 ≤ stroke → stroke ≤ 500 →
      1 ≤ num_cylinders → num_cylinders ≤ 12 →
      0 < rpm → rpm ≤ 8000 → 1 ≤ imep → imep ≤ 30 →
      10 ≤ torque → torque ≤ 1000 →
      30000 ≤ calorific_value → calorific_value ≤ 50000 →
      0.1 ≤ fuel_consumption → fuel_consumption ≤ 100 →
      0 < indicated_power bore stroke num_cylinders engine_type rpm imep ∧
      0 < brake_power rpm torque ∧
      0 < fuel_power fuel_consumption calorific_value ∧
      calculate_engine_performanceE bore stroke num_cylinders engine_type cr
          rpm imep torque calorific_value fuel_consumption =
        Except.ok (calculate_engine_performance bore stroke num_cylinders
          engine_type cr rpm imep torque calorific_value fuel_consumption) := by
  intro bore stroke num_cylinders engine_type cr rpm imep torque cv fc
    hb₁ _ hs₁ _ hnc₁ _ hrpm _ him₁ _ htq₁ _ hcv₁ _ hfc₁ _
  have hb : (0 : ℝ) < bore := by linarith
  have hs : (0 : ℝ) < stroke := by linarith
  have him : (0 : ℝ) < imep := by linarith
  have htq : (0 : ℝ) < torque := by linarith
  have hcv : (0 : ℝ) < cv := by linarith
  have hfc : (0 : ℝ) < fc := by linarith
  have hncR : (0 : ℝ) < num_cylinders := by
    have : (1 : ℝ) ≤ num_cylinders := by exact_mod_cast hnc₁
    linarith
  have hn : 0 < working_strokes_per_minute engine_type rpm := by
    cases engine_type <;> simp only [working_strokes_per_minute] <;> positivity
  have hip : 0 < indicated_power bore stroke num_cylinders engine_type rpm imep := by
    unfold indicated_power piston_area
    positivity
  have hbp : 0 < brake_power rpm torque := by
    unfold brake_power
    positivity
  have hfp : 0 < fuel_power fc cv := by
    unfold fuel_power
    positivity
  exact ⟨hip, hbp, hfp,
    calcE_ok_of_ne bore stroke num_cylinders engine_type cr rpm imep torque cv
      fc hip.ne' hbp.ne' hfp.ne'⟩

/-- Witness for the amended C5 at the app's default inputs. -/
theorem claim_C5_positive_denominators_witness :
    0 < indicated_power 80 90 4 EngineType.fourStroke 3000 8 ∧
    0 < brake_power 3000 150 ∧
    0 < fuel_power 5 44000 ∧
    calculate_engine_performanceE 80 90 4 EngineType.fourStroke 9.5 3000 8 150
        44000 5 =
      Except.ok (calculate_engine_performance 80 90 4 EngineType.fourStroke
        9.5 3000 8 150 44000 5) :=
  claim_C5_positive_denominators 80 90 4 EngineType.fourStroke 9.5 3000 8 150
    44000 5 (by norm_num) (by norm_num) (by norm_num) (by norm_num)
    (by norm_num) (by norm_num) (by norm_num) (by norm_num) (by norm_num)
    (by norm_num) (by norm_num) (by norm_num) (by norm_num) (by norm_num)
    (by norm_num) (by norm_num)

/-- Claim C8: on the 50-point compression-ratio grid over `[6, 20]`, the
theoretical efficiency is `(1 − 1/r^(γ−1))·100` with `γ = 1.4` for Petrol
and `γ = 1.35` for Diesel (Diesel additionally scaled by `0.9`), the
practical curve is `0.6` times the theoretical one pointwise, and both
series are strictly increasing in the compression ratio for both fuels. -/
theorem claim_C8_efficiency_curve :
    (∀ r : ℝ, theoretical_efficiency FuelType.petrol r =
      (1 - 1 / r ^ ((1.4 : ℝ) - 1)) * 100) ∧
    (∀ r : ℝ, theoretical_efficiency FuelType.diesel r =
      (1 - 1 / r ^ ((1.35 : ℝ) - 1)) * 100 * 0.9) ∧
    (∀ (fuel_type : FuelType) (r : ℝ), practical_efficiency fuel_type r =
      0.6 * theoretical_efficiency fuel_type r) ∧
    cr_range = (List.range 50).map cr_sample ∧
    (∀ (fuel_type : FuelType) (i j : ℕ), i < j → j < 50 →
      theoretical_efficiency fuel_type (cr_sample i) <
        theoretical_efficiency fuel_type (cr_sample j)) ∧
    (∀ (fuel_type : FuelType) (i j : ℕ), i < j → j < 50 →
      practical_efficiency fuel_type (cr_sample i) <
        practical_efficiency fuel_type (cr_sample j)) := by
  have hmono : ∀ (fuel_type : FuelType) (i j : ℕ), i < j →
      theoretical_efficiency fuel_type (cr_sample i) <
        theoretical_efficiency fuel_type (cr_sample j) := by
    intro fuel_type i j hij
    exact theoretical_efficiency_lt fuel_type (cr_sample_pos i) (cr_sample_lt hij)
  refine ⟨fun r => rfl, fun r => rfl,
    fun fuel_type r => by unfold practical_efficiency; ring, rfl,
    fun fuel_type i j hij _ => hmono fuel_type i j hij, ?_⟩
  intro fuel_type i j hij _
  unfold practical_efficiency
  have h := hmono fuel_type i j hij
  linarith

/-- Witness for C8: strict increase between the first two samples, Petrol. -/
theorem claim_C8_efficiency_curve_witness :
    theoretical_efficiency FuelType.petrol (cr_sample 0) <
      theoretical_efficiency FuelType.petrol (cr_sample 1) :=
  claim_C8_efficiency_curve.2.2.2.2.1 FuelType.petrol 0 1 (by norm_num)
    (by norm_num)

/-- Claim C9: in the power/torque-vs-RPM curve (50 samples over
`[1000, 6000]`, peak at `3000`), the torque curve is the linear ramp
`peak_torque·(r/3000)` up to `3000` and the exponential decay
`peak_torque·exp(−0.0005·(r−3000))` past it, so `torque(3000) = peak_torque`
exactly and `torque(6000) < torque(3000)`; every power value is
`brake_power r (torque r)`, the same rotational-power formula as
`brake_power`. -/
theorem claim_C9_power_torque_curve :
    ∀ peak_torque : ℝ, 0 < peak_torque →
      (∀ r : ℝ, r ≤ 3000 →
        torque_curve peak_torque r = peak_torque * (r / 3000)) ∧
      (∀ r : ℝ, 3000 < r →
        torque_curve peak_torque r =
          peak_torque * Real.exp (-0.0005 * (r - 3000))) ∧
      torque_curve peak_torque 3000 = peak_torque ∧
      torque_curve peak_torque 6000 < torque_curve peak_torque 3000 ∧
      (∀ r : ℝ, power_curve peak_torque r =
        brake_power r (torque_curve peak_torque r)) ∧
      rpm_range = (List.range 50).map rpm_sample := by
  intro pt hpt
  have hramp : ∀ r : ℝ, r ≤ 3000 → torque_curve pt r = pt * (r / 3000) := by
    intro r hr
    unfold torque_curve peak_rpm
    rw [if_pos hr]
  have hdecay : ∀ r : ℝ, 3000 < r →
      torque_curve pt r = pt * Real.exp (-0.0005 * (r - 3000)) := by
    intro r hr
    unfold torque_curve peak_rpm
    rw [if_neg (not_le.mpr hr)]
  have hat : torque_curve pt 3000 = pt := by
    rw [hramp 3000 le_rfl]
    norm_num
  refine ⟨hramp, hdecay, hat, ?_, ?_, rfl⟩
  · rw [hat, hdecay 6000 (by norm_num)]
    have he : Real.exp (-0.0005 * (6000 - 3000)) < 1 := by
      rw [Real.exp_lt_one_iff]
      norm_num
    have := mul_lt_mul_of_pos_left he hpt
    simpa using this
  · intro r
    unfold power_curve brake_power
    norm_num

/-- Witness for C9 at `peak_torque = 150`: the ramp meets the peak value. -/
theorem claim_C9_power_torque_curve_witness :
    torque_curve 150 3000 = 150 :=
  (claim_C9_power_torque_curve 150 (by norm_num)).2.2.1

end EngineEstimator
